import Mathlib

/-!
Verification of the typed-value codec in `nt_client/src/data/type.rs`
(`DataType` taxonomy, numeric-id mapping, textual-token mapping, and the
per-type `NetworkTableData` encode/decode capability), shallowly embedded
in Lean.  Machine integers are modelled as `Nat`/`Int` with explicit range
checks; the MessagePack wire value (`rmpv::Value`, an external dependency)
is modelled per the accessor/constructor boundary the codec uses, with
float payloads carried as exact rationals.
-/

namespace NT

/-- Alias for Lean's string type, needed inside the `DataType` namespace,
where the `String` constructor shadows the type. -/
abbrev Str := String

/-- The `DataType` enum of `type.rs`, constructor for constructor. -/
inductive DataType
  /-- Struct schema data type -/
  | StructSchema
  /-- A struct type with a name (e.g., "struct:Rotation2d") -/
  | Struct (name : String)
  /-- `bool` data type -/
  | Boolean
  /-- `f64` data type -/
  | Double
  /-- Any integer data type -/
  | Int
  /-- `f32` data type -/
  | Float
  /-- `String` data type -/
  | String
  /-- JSON data type -/
  | Json
  /-- Raw binary data type -/
  | Raw
  /-- RPC data type -/
  | Rpc
  /-- MessagePack data type -/
  | Msgpack
  /-- Google Protocol Buffers data type -/
  | Protobuf
  /-- `Vec<bool>` data type -/
  | BooleanArray
  /-- `Vec<f64>` data type -/
  | DoubleArray
  /-- a `Vec` of integers data type -/
  | IntArray
  /-- `Vec<f32>` data type -/
  | FloatArray
  /-- `Vec<String>` data type -/
  | StringArray
  /-- Any other type -/
  | Other (raw : String)
  deriving DecidableEq, Repr

/-- `DataType::from_id` (`type.rs` lines 204-222); ids are `u32`,
modelled as `Nat` (callers stay below `2^32`). -/
def DataType.from_id (id : Nat) : Option DataType :=
  match id with
  | 0 => some .Boolean
  | 1 => some .Double
  | 2 => some .Int
  | 3 => some .Float
  | 4 => some .String
  | 5 => some .Raw
  | 16 => some .BooleanArray
  | 17 => some .DoubleArray
  | 18 => some .IntArray
  | 19 => some .FloatArray
  | 20 => some .StringArray
  | _ => none

/-- `DataType::as_id` (`type.rs` lines 228-245); `u32::MAX` is `2^32 - 1`. -/
def DataType.as_id : DataType → Nat
  | .Boolean => 0
  | .Double => 1
  | .Int => 2
  | .Float => 3
  | .String | .Json => 4
  | .Raw | .Rpc | .Msgpack | .Protobuf => 5
  | .BooleanArray => 16
  | .DoubleArray => 17
  | .IntArray => 18
  | .FloatArray => 19
  | .StringArray => 20
  | _ => 4294967295

/-- The pattern the textual decoder strips: the characters of `"struct:"`. -/
def structTag : List Char := "struct:".data

/-- Fuel-indexed body of Rust's `s.trim_start_matches("struct:")`, which
removes *all* leading occurrences of the pattern.  The fuel only bounds the
recursion (each strip removes 7 characters, so `s.length` steps always
suffice); `trimStartMatchesStruct_strip` and `trimStartMatchesStruct_nostrip`
below recover the fuel-free defining equations. -/
def stripStructAux : Nat → List Char → List Char
  | 0, s => s
  | fuel + 1, s =>
    if structTag.isPrefixOf s then stripStructAux fuel (s.drop 7) else s

/-- Rust `value.trim_start_matches("struct:")` on the textual token. -/
def trimStartMatchesStruct (s : String) : String :=
  ⟨stripStructAux s.data.length s.data⟩

/-- `impl Deserialize for DataType` (`type.rs` lines 162-196): total textual
decoding of the already-read string token. -/
def DataType.deserialize (value : Str) : DataType :=
  if structTag.isPrefixOf value.data then
    .Struct (trimStartMatchesStruct value)
  else
    match value with
    | "boolean" => .Boolean
    | "double" => .Double
    | "int" => .Int
    | "float" => .Float
    | "string" => .String
    | "json" => .Json
    | "raw" => .Raw
    | "rpc" => .Rpc
    | "msgpack" => .Msgpack
    | "protobuf" => .Protobuf
    | "boolean[]" => .BooleanArray
    | "double[]" => .DoubleArray
    | "int[]" => .IntArray
    | "float[]" => .FloatArray
    | "string[]" => .StringArray
    | "structschema" => .StructSchema
    | _ => .Other value

/-- Output shape of serde's derived `Serialize` for an enum in a textual data
format: a unit variant is emitted as a bare string holding the Rust variant
name; a newtype variant is emitted as a tagged single-field form. -/
inductive SerializedForm
  | unitVariant (name : String)
  | newtypeVariant (variant : String) (payload : String)
  deriving DecidableEq, Repr

/-- The `#[derive(Serialize)]` on `DataType` (`type.rs` line 122): serde's
derived serializer writes each unit variant by its Rust variant name and each
newtype variant (`Struct`, `Other`) as a tagged newtype form carrying the
field. -/
def DataType.serialize : DataType → SerializedForm
  | .StructSchema => .unitVariant "StructSchema"
  | .Struct name => .newtypeVariant "Struct" name
  | .Boolean => .unitVariant "Boolean"
  | .Double => .unitVariant "Double"
  | .Int => .unitVariant "Int"
  | .Float => .unitVariant "Float"
  | .String => .unitVariant "String"
  | .Json => .unitVariant "Json"
  | .Raw => .unitVariant "Raw"
  | .Rpc => .unitVariant "Rpc"
  | .Msgpack => .unitVariant "Msgpack"
  | .Protobuf => .unitVariant "Protobuf"
  | .BooleanArray => .unitVariant "BooleanArray"
  | .DoubleArray => .unitVariant "DoubleArray"
  | .IntArray => .unitVariant "IntArray"
  | .FloatArray => .unitVariant "FloatArray"
  | .StringArray => .unitVariant "StringArray"
  | .Other raw => .newtypeVariant "Other" raw

/-- The plain textual token a serialized form presents, if any: a unit
variant is written as a bare token; a newtype variant is not a bare token. -/
def SerializedForm.asToken : SerializedForm → Option String
  | .unitVariant name => some name
  | .newtypeVariant _ _ => none

/-- The MessagePack wire value (`rmpv::Value`), the external dependency the
codec reads through typed accessors and builds through typed constructors
(spec section 6).  Integer payloads are carried as `Int`, wider than the
`rmpv` integer (which holds `-(2^63) ≤ n < 2^64`); the accessors carry the
explicit range checks, so behaviour on representable payloads coincides.
Float payloads are modelled as exact rationals. -/
inductive Value
  | nil
  | boolean (b : Bool)
  | integer (n : Int)
  | f32 (x : ℚ)
  | f64 (x : ℚ)
  | str (s : String)
  | bin (bytes : List Nat)
  | array (xs : List Value)
  | map (entries : List (Value × Value))
  | ext (tag : Int) (bytes : List Nat)

/-- `rmpv::Value::as_bool`: a view of a boolean payload. -/
def Value.as_bool : Value → Option Bool
  | .boolean b => some b
  | _ => none

/-- `rmpv::Value::as_i64`: an integer payload, provided it fits the signed
64-bit range. -/
def Value.as_i64 : Value → Option Int
  | .integer n => if -(2 ^ 63) ≤ n ∧ n < 2 ^ 63 then some n else none
  | _ => none

/-- `rmpv::Value::as_u64`: an integer payload, provided it fits the unsigned
64-bit range. -/
def Value.as_u64 : Value → Option Nat
  | .integer n => if 0 ≤ n ∧ n < 2 ^ 64 then some n.toNat else none
  | _ => none

/-- Modelled from the spec: the wire value's double accessor (spec section 6:
an optional view matching the requested shape, `none` on shape mismatch).
An F32 payload widens exactly (IEEE f32-to-f64 widening is exact); an F64
payload is returned as is. -/
def Value.as_f64 : Value → Option ℚ
  | .f32 x => some x
  | .f64 x => some x
  | _ => none

/-- `rmpv::Value::as_str`: a view of a string payload. -/
def Value.as_str : Value → Option String
  | .str s => some s
  | _ => none

/-- `rmpv::Value::as_array`: a view of an array payload. -/
def Value.as_array : Value → Option (List Value)
  | .array xs => some xs
  | _ => none

/-- Rust `i8`, as the subtype of integers in its range. -/
abbrev I8 := {n : Int // -(2 ^ 7) ≤ n ∧ n < 2 ^ 7}
/-- Rust `i16`, as the subtype of integers in its range. -/
abbrev I16 := {n : Int // -(2 ^ 15) ≤ n ∧ n < 2 ^ 15}
/-- Rust `i32`, as the subtype of integers in its range. -/
abbrev I32 := {n : Int // -(2 ^ 31) ≤ n ∧ n < 2 ^ 31}
/-- Rust `i64`, as the subtype of integers in its range. -/
abbrev I64 := {n : Int // -(2 ^ 63) ≤ n ∧ n < 2 ^ 63}
/-- Rust `u8`, as the subtype of naturals in its range. -/
abbrev U8 := {n : Nat // n < 2 ^ 8}
/-- Rust `u16`, as the subtype of naturals in its range. -/
abbrev U16 := {n : Nat // n < 2 ^ 16}
/-- Rust `u32`, as the subtype of naturals in its range. -/
abbrev U32 := {n : Nat // n < 2 ^ 32}
/-- Rust `u64`, as the subtype of naturals in its range. -/
abbrev U64 := {n : Nat // n < 2 ^ 64}

/-- Rust `i64 -> i8` narrowing `try_into().ok()`: range-checked. -/
def tryIntoI8 (n : Int) : Option I8 :=
  if h : -(2 ^ 7) ≤ n ∧ n < 2 ^ 7 then some ⟨n, h⟩ else none
/-- Rust `i64 -> i16` narrowing `try_into().ok()`: range-checked. -/
def tryIntoI16 (n : Int) : Option I16 :=
  if h : -(2 ^ 15) ≤ n ∧ n < 2 ^ 15 then some ⟨n, h⟩ else none
/-- Rust `i64 -> i32` narrowing `try_into().ok()`: range-checked. -/
def tryIntoI32 (n : Int) : Option I32 :=
  if h : -(2 ^ 31) ≤ n ∧ n < 2 ^ 31 then some ⟨n, h⟩ else none
/-- Rust `i64 -> i64` `try_into().ok()` (always in range here). -/
def tryIntoI64 (n : Int) : Option I64 :=
  if h : -(2 ^ 63) ≤ n ∧ n < 2 ^ 63 then some ⟨n, h⟩ else none
/-- Rust `u64 -> u8` narrowing `try_into().ok()`: range-checked. -/
def tryIntoU8 (n : Nat) : Option U8 :=
  if h : n < 2 ^ 8 then some ⟨n, h⟩ else none
/-- Rust `u64 -> u16` narrowing `try_into().ok()`: range-checked. -/
def tryIntoU16 (n : Nat) : Option U16 :=
  if h : n < 2 ^ 16 then some ⟨n, h⟩ else none
/-- Rust `u64 -> u32` narrowing `try_into().ok()`: range-checked. -/
def tryIntoU32 (n : Nat) : Option U32 :=
  if h : n < 2 ^ 32 then some ⟨n, h⟩ else none
/-- Rust `u64 -> u64` `try_into().ok()` (always in range here). -/
def tryIntoU64 (n : Nat) : Option U64 :=
  if h : n < 2 ^ 64 then some ⟨n, h⟩ else none

/-! ### The `impl_data_type!` expansions for scalars (`type.rs` 281-297)

Each Rust trait impl `impl NetworkTableData for T` becomes a triple of
definitions `<t>_data_type`, `<t>_from_value`, `<t>_into_value`.  The
macro's generic arm wraps the accessor expression with
`.and_then(|value| value.try_into().ok())`, where the final `try_into` is
the identity conversion `T -> T`; it is kept as `.bind fun v => some v`. -/

/-- `<bool as NetworkTableData>::data_type`. -/
def bool_data_type : DataType := .Boolean
/-- `<bool as NetworkTableData>::from_value`. -/
def bool_from_value (value : Value) : Option Bool :=
  (value.as_bool).bind fun v => some v
/-- `<bool as NetworkTableData>::into_value`. -/
def bool_into_value (this : Bool) : Value := .boolean this

/-- `<f64 as NetworkTableData>::data_type`. -/
def f64_data_type : DataType := .Double
/-- `<f64 as NetworkTableData>::from_value`. -/
def f64_from_value (value : Value) : Option ℚ :=
  (value.as_f64).bind fun v => some v
/-- `<f64 as NetworkTableData>::into_value`. -/
def f64_into_value (this : ℚ) : Value := .f64 this

/-- `<i8 as NetworkTableData>::data_type`. -/
def i8_data_type : DataType := .Int
/-- `<i8 as NetworkTableData>::from_value` (`i` macro arm):
`value.as_i64().and_then(|value| value.try_into().ok())`. -/
def i8_from_value (value : Value) : Option I8 :=
  (value.as_i64).bind fun v => tryIntoI8 v
/-- `<i8 as NetworkTableData>::into_value`. -/
def i8_into_value (this : I8) : Value := .integer this.val

/-- `<i16 as NetworkTableData>::data_type`. -/
def i16_data_type : DataType := .Int
/-- `<i16 as NetworkTableData>::from_value` (`i` macro arm). -/
def i16_from_value (value : Value) : Option I16 :=
  (value.as_i64).bind fun v => tryIntoI16 v
/-- `<i16 as NetworkTableData>::into_value`. -/
def i16_into_value (this : I16) : Value := .integer this.val

/-- `<i32 as NetworkTableData>::data_type`. -/
def i32_data_type : DataType := .Int
/-- `<i32 as NetworkTableData>::from_value` (`i` macro arm). -/
def i32_from_value (value : Value) : Option I32 :=
  (value.as_i64).bind fun v => tryIntoI32 v
/-- `<i32 as NetworkTableData>::into_value`. -/
def i32_into_value (this : I32) : Value := .integer this.val

/-- `<i64 as NetworkTableData>::data_type`. -/
def i64_data_type : DataType := .Int
/-- `<i64 as NetworkTableData>::from_value` (`i` macro arm). -/
def i64_from_value (value : Value) : Option I64 :=
  (value.as_i64).bind fun v => tryIntoI64 v
/-- `<i64 as NetworkTableData>::into_value`. -/
def i64_into_value (this : I64) : Value := .integer this.val

/-- `<u8 as NetworkTableData>::data_type`. -/
def u8_data_type : DataType := .Int
/-- `<u8 as NetworkTableData>::from_value` (`u` macro arm):
`value.as_u64().and_then(|value| value.try_into().ok())`. -/
def u8_from_value (value : Value) : Option U8 :=
  (value.as_u64).bind fun v => tryIntoU8 v
/-- `<u8 as NetworkTableData>::into_value`. -/
def u8_into_value (this : U8) : Value := .integer (this.val : Int)

/-- `<u16 as NetworkTableData>::data_type`. -/
def u16_data_type : DataType := .Int
/-- `<u16 as NetworkTableData>::from_value` (`u` macro arm). -/
def u16_from_value (value : Value) : Option U16 :=
  (value.as_u64).bind fun v => tryIntoU16 v
/-- `<u16 as NetworkTableData>::into_value`. -/
def u16_into_value (this : U16) : Value := .integer (this.val : Int)

/-- `<u32 as NetworkTableData>::data_type`. -/
def u32_data_type : DataType := .Int
/-- `<u32 as NetworkTableData>::from_value` (`u` macro arm). -/
def u32_from_value (value : Value) : Option U32 :=
  (value.as_u64).bind fun v => tryIntoU32 v
/-- `<u32 as NetworkTableData>::into_value`. -/
def u32_into_value (this : U32) : Value := .integer (this.val : Int)

/-- `<u64 as NetworkTableData>::data_type`. -/
def u64_data_type : DataType := .Int
/-- `<u64 as NetworkTableData>::from_value` (`u` macro arm). -/
def u64_from_value (value : Value) : Option U64 :=
  (value.as_u64).bind fun v => tryIntoU64 v
/-- `<u64 as NetworkTableData>::into_value`. -/
def u64_into_value (this : U64) : Value := .integer (this.val : Int)

/-- Modelled from the spec: Rust's `num as f32` precision-lossy cast (spec
section 4.3).  On the exact rational carrier it is modelled as the identity,
faithful precisely on f32-representable payloads — the only payloads this
development applies it to (round-trips of values that started as f32). -/
def f64_as_f32_cast (num : ℚ) : ℚ := num

/-- `<f32 as NetworkTableData>::data_type`. -/
def f32_data_type : DataType := .Float
/-- `<f32 as NetworkTableData>::from_value`:
`value.as_f64().map(|num| num as f32)` plus the identity `try_into`. -/
def f32_from_value (value : Value) : Option ℚ :=
  ((value.as_f64).map fun num => f64_as_f32_cast num).bind fun v => some v
/-- `<f32 as NetworkTableData>::into_value`. -/
def f32_into_value (this : ℚ) : Value := .f32 this

/-- `<String as NetworkTableData>::data_type`. -/
def string_data_type : DataType := .String
/-- `<String as NetworkTableData>::from_value`:
`value.as_str().map(|str| str.to_owned())` plus the identity `try_into`. -/
def string_from_value (value : Value) : Option String :=
  ((value.as_str).map fun s => s).bind fun v => some v
/-- `<String as NetworkTableData>::into_value`. -/
def string_into_value (this : String) : Value := .str this

/-- The `transparent!` wrapper `JsonString(pub String)` (`type.rs` 260-264). -/
structure JsonString where
  val : String
  deriving DecidableEq, Repr

/-- The `transparent!` wrapper `RawData(pub Vec<u8>)` (`type.rs` 265-269). -/
structure RawData where
  val : List U8
  deriving DecidableEq, Repr

/-- The `transparent!` wrapper `Rpc(pub Vec<u8>)` (`type.rs` 270-274). -/
structure Rpc where
  val : List U8
  deriving DecidableEq, Repr

/-- The `transparent!` wrapper `Protobuf(pub Vec<u8>)` (`type.rs` 275-279). -/
structure Protobuf where
  val : List U8
  deriving DecidableEq, Repr

/-- `<JsonString as NetworkTableData>::data_type`. -/
def jsonString_data_type : DataType := .Json
/-- `<JsonString as NetworkTableData>::from_value`:
`value.as_str().map(|str| JsonString(str.to_owned()))` plus identity
`try_into`. -/
def jsonString_from_value (value : Value) : Option JsonString :=
  ((value.as_str).map fun s => JsonString.mk s).bind fun v => some v
/-- `<JsonString as NetworkTableData>::into_value`: the transparent
`Into<rmpv::Value>` forwards to the inner string (`self.0.into()`). -/
def jsonString_into_value (this : JsonString) : Value := .str this.val

/-- The `vec` macro arm's decode (`type.rs` 43-50): read the wire array and
decode every element with the per-element decoder, collecting with Rust's
`collect::<Option<Vec<_>>>`, which fails the whole array on the first
failing element — rendered by `List.mapM` in the `Option` monad. -/
def vec_from_value (elemDecode : Value → Option α) (value : Value) :
    Option (List α) :=
  (value.as_array).bind fun vec => vec.mapM fun v => elemDecode v

/-- The `vec` macro arm's encode: `rmpv::Value::from_iter(this)`, a wire
array of the element encodings in original order. -/
def vec_into_value (elemInto : α → Value) (this : List α) : Value :=
  .array (this.map elemInto)

/-- `<Vec<i32> as NetworkTableData>::data_type`. -/
def vec_i32_data_type : DataType := .IntArray
/-- `<Vec<i32> as NetworkTableData>::from_value`: each element is decoded by
`value.as_i64().and_then(|value| value.try_into().ok())`, the same body as
the `i32` scalar decoder. -/
def vec_i32_from_value (value : Value) : Option (List I32) :=
  vec_from_value i32_from_value value
/-- `<Vec<i32> as NetworkTableData>::into_value`. -/
def vec_i32_into_value (this : List I32) : Value :=
  vec_into_value i32_into_value this

/-- `<RawData as NetworkTableData>::data_type`. -/
def rawData_data_type : DataType := .Raw
/-- `<RawData as NetworkTableData>::from_value` (`bytes` macro arm): the wire
value must be an array; each element is decoded by
`value.as_u64().and_then(|value| value.try_into().ok())` into a byte (the
same body as the `u8` scalar decoder) and the results are collected into the
wrapper. -/
def rawData_from_value (value : Value) : Option RawData :=
  (vec_from_value u8_from_value value).map RawData.mk
/-- `<RawData as NetworkTableData>::into_value`: unwrap to `Vec<u8>` and
build a wire array with one wire integer per byte. -/
def rawData_into_value (this : RawData) : Value :=
  vec_into_value u8_into_value this.val

/-- `<Rpc as NetworkTableData>::data_type`. -/
def rpc_data_type : DataType := .Rpc
/-- `<Rpc as NetworkTableData>::from_value` (`bytes` macro arm). -/
def rpc_from_value (value : Value) : Option Rpc :=
  (vec_from_value u8_from_value value).map Rpc.mk
/-- `<Rpc as NetworkTableData>::into_value`. -/
def rpc_into_value (this : Rpc) : Value :=
  vec_into_value u8_into_value this.val

/-- `<Protobuf as NetworkTableData>::data_type`. -/
def protobuf_data_type : DataType := .Protobuf
/-- `<Protobuf as NetworkTableData>::from_value` (`bytes` macro arm). -/
def protobuf_from_value (value : Value) : Option Protobuf :=
  (vec_from_value u8_from_value value).map Protobuf.mk
/-- `<Protobuf as NetworkTableData>::into_value`. -/
def protobuf_into_value (this : Protobuf) : Value :=
  vec_into_value u8_into_value this.val

/-- `DataTypeVisitor::visit_u64` (`type.rs` 329-335): narrow the unsigned
64-bit id to `u32` (the narrowing failure's `E::custom` carries
`TryFromIntError`'s display text), then look the id up with `from_id`,
failing with a message naming the offending value when there is no match. -/
def visit_u64 (v : Nat) : Except String DataType :=
  if v < 2 ^ 32 then
    match DataType.from_id v with
    | some d => .ok d
    | none => .error (toString v ++ " is not a valid type id")
  else .error "out of range integral type conversion attempted"

/-- `DataTypeVisitor::visit_i64` (`type.rs` 322-327): narrow the signed
value to `u64` (failing for negatives with `TryFromIntError`'s display
text), then defer to `visit_u64`. -/
def visit_i64 (v : Int) : Except String DataType :=
  if 0 ≤ v then visit_u64 v.toNat
  else .error "out of range integral type conversion attempted"

/-- `serialize_as_u32` (`type.rs` 299-304): a `DataType` is written as the
bare numeric id `as_id()`. -/
def serialize_as_u32 (data_type : DataType) : Nat := data_type.as_id

/-! ### Helper lemmas -/

theorem length_of_structTag_isPrefixOf {s : List Char}
    (h : structTag.isPrefixOf s) : 7 ≤ s.length := by
  have hp : structTag <+: s := List.isPrefixOf_iff_prefix.mp h
  simpa [structTag] using hp.length_le

theorem stripStructAux_congr :
    ∀ (n m : Nat) (s : List Char), s.length ≤ n → s.length ≤ m →
      stripStructAux n s = stripStructAux m s := by
  intro n
  induction n with
  | zero =>
    intro m s hn _
    have hs : s = [] := List.eq_nil_of_length_eq_zero (Nat.le_zero.mp hn)
    subst hs
    have hnp : ¬ structTag.isPrefixOf ([] : List Char) := by
      intro h
      have := length_of_structTag_isPrefixOf h
      simp at this
    cases m with
    | zero => rfl
    | succ m => simp [stripStructAux, hnp]
  | succ n ih =>
    intro m s hn hm
    cases m with
    | zero =>
      have hs : s = [] := List.eq_nil_of_length_eq_zero (Nat.le_zero.mp hm)
      subst hs
      have hnp : ¬ structTag.isPrefixOf ([] : List Char) := by
        intro h
        have := length_of_structTag_isPrefixOf h
        simp at this
      simp [stripStructAux, hnp]
    | succ m =>
      by_cases hp : structTag.isPrefixOf s
      · have h7 := length_of_structTag_isPrefixOf hp
        have hd : (s.drop 7).length = s.length - 7 := List.length_drop 7 s
        simp only [stripStructAux, hp, if_true]
        exact ih m (s.drop 7) (by omega) (by omega)
      · simp [stripStructAux, hp]

theorem trimStartMatchesStruct_nostrip {s : String}
    (h : ¬ structTag.isPrefixOf s.data) : trimStartMatchesStruct s = s := by
  unfold trimStartMatchesStruct
  cases hl : s.data.length with
  | zero => simp [stripStructAux]
  | succ n => simp [stripStructAux, h]

theorem trimStartMatchesStruct_strip {s : String}
    (h : structTag.isPrefixOf s.data) :
    trimStartMatchesStruct s = trimStartMatchesStruct ⟨s.data.drop 7⟩ := by
  unfold trimStartMatchesStruct
  have h7 := length_of_structTag_isPrefixOf h
  have hd : (s.data.drop 7).length = s.data.length - 7 := List.length_drop 7 s.data
  obtain ⟨k, hk⟩ : ∃ k, s.data.length = k + 1 := ⟨s.data.length - 1, by omega⟩
  rw [hk]
  simp only [stripStructAux, h, if_true]
  exact congrArg String.mk (stripStructAux_congr k _ (s.data.drop 7) (by omega) (by simp [hd]))

/-! #### `List.mapM` in the `Option` monad -/

theorem mapM_option_eq_some_iff {α β : Type} (f : α → Option β)
    (xs : List α) (ys : List β) :
    xs.mapM f = some ys ↔ List.Forall₂ (fun x y => f x = some y) xs ys := by
  rw [← List.mapM'_eq_mapM]
  induction xs generalizing ys with
  | nil =>
    simp only [List.mapM'_nil, List.forall₂_nil_left_iff]
    constructor
    · intro h
      exact (Option.some_inj.mp h).symm
    · intro h
      simp [h]
  | cons a l ih =>
    simp only [List.mapM'_cons]
    constructor
    · intro h
      cases hfa : f a with
      | none => simp [hfa] at h
      | some b =>
        cases hml : l.mapM' f with
        | none => simp [hfa, hml] at h
        | some bs =>
          simp only [hfa, hml] at h
          obtain rfl : b :: bs = ys := by simpa using h
          exact List.Forall₂.cons hfa ((ih bs).mp hml)
    · intro h
      cases h with
      | cons h1 h2 =>
        rw [h1, (ih _).mpr h2]
        simp

theorem mapM_option_isSome_iff {α β : Type} (f : α → Option β) (xs : List α) :
    (xs.mapM f).isSome ↔ ∀ x ∈ xs, (f x).isSome := by
  rw [← List.mapM'_eq_mapM]
  induction xs with
  | nil => simp [List.mapM'_nil]
  | cons a l ih =>
    rw [List.mapM'_cons]
    cases hfa : f a with
    | none => simp [hfa]
    | some b =>
      cases hml : l.mapM' f with
      | none =>
        simp only [hml] at ih
        have hnot : ¬ ∀ x ∈ l, (f x).isSome := by
          rw [← ih]
          simp
        push_neg at hnot
        obtain ⟨x, hx, hfx⟩ := hnot
        simp
        intro _
        exact ⟨x, hx, Option.not_isSome_iff_eq_none.mp (by simpa using hfx)⟩
      | some bs =>
        simp only [hml] at ih
        have hall : ∀ x ∈ l, (f x).isSome := ih.mp rfl
        simp
        exact ⟨by simp [hfa], hall⟩

/-- Characterization of the repeated strip: the input splits as some number
of copies of `"struct:"` followed by the output, and the output no longer
starts with `"struct:"`. -/
theorem trimStartMatchesStruct_spec :
    ∀ (n : Nat) (s : String), s.data.length ≤ n →
      ∃ k : Nat,
        s.data = (List.replicate k structTag).flatten ++ (trimStartMatchesStruct s).data ∧
        ¬ structTag.isPrefixOf (trimStartMatchesStruct s).data := by
  intro n
  induction n with
  | zero =>
    intro s hl
    have hs : s.data = [] := List.eq_nil_of_length_eq_zero (Nat.le_zero.mp hl)
    have hnp : ¬ structTag.isPrefixOf s.data := by
      intro h
      have := length_of_structTag_isPrefixOf h
      omega
    rw [trimStartMatchesStruct_nostrip hnp]
    exact ⟨0, by simp, hnp⟩
  | succ n ih =>
    intro s hl
    by_cases hp : structTag.isPrefixOf s.data
    · have h7 := length_of_structTag_isPrefixOf hp
      rw [trimStartMatchesStruct_strip hp]
      obtain ⟨t, ht⟩ := List.isPrefixOf_iff_prefix.mp hp
      have hdrop : s.data.drop 7 = t := by
        rw [← ht]
        rw [show (7 : Nat) = structTag.length from rfl, List.drop_left]
      have hlen : (s.data.drop 7).length = s.data.length - 7 :=
        List.length_drop 7 s.data
      obtain ⟨k, hk, hnp⟩ := ih ⟨s.data.drop 7⟩ (by simp only [hlen]; omega)
      refine ⟨k + 1, ?_, hnp⟩
      rw [List.replicate_succ, List.flatten_cons, List.append_assoc]
      calc s.data = structTag ++ t := ht.symm
        _ = structTag ++ s.data.drop 7 := by rw [hdrop]
        _ = structTag ++
            ((List.replicate k structTag).flatten ++
              (trimStartMatchesStruct ⟨s.data.drop 7⟩).data) := by
          rw [show (String.mk (s.data.drop 7)).data = s.data.drop 7 from rfl] at hk
          rw [← hk]
    · rw [trimStartMatchesStruct_nostrip hp]
      exact ⟨0, by simp, hp⟩

/-! #### Per-type encode/decode round trips -/

theorem bool_from_into (v : Bool) :
    bool_from_value (bool_into_value v) = some v := rfl

theorem f64_from_into (v : ℚ) :
    f64_from_value (f64_into_value v) = some v := rfl

theorem f32_from_into (v : ℚ) :
    f32_from_value (f32_into_value v) = some v := rfl

theorem string_from_into (v : String) :
    string_from_value (string_into_value v) = some v := rfl

theorem i8_from_into (v : I8) :
    i8_from_value (i8_into_value v) = some v := by
  obtain ⟨n, h1, h2⟩ := v
  simp only [i8_into_value, i8_from_value, Value.as_i64]
  rw [if_pos (⟨by omega, by omega⟩ : -(2 ^ 63) ≤ n ∧ n < 2 ^ 63)]
  show tryIntoI8 n = some ⟨n, h1, h2⟩
  unfold tryIntoI8
  rw [dif_pos (⟨h1, h2⟩ : -(2 ^ 7) ≤ n ∧ n < 2 ^ 7)]

theorem i16_from_into (v : I16) :
    i16_from_value (i16_into_value v) = some v := by
  obtain ⟨n, h1, h2⟩ := v
  simp only [i16_into_value, i16_from_value, Value.as_i64]
  rw [if_pos (⟨by omega, by omega⟩ : -(2 ^ 63) ≤ n ∧ n < 2 ^ 63)]
  show tryIntoI16 n = some ⟨n, h1, h2⟩
  unfold tryIntoI16
  rw [dif_pos (⟨h1, h2⟩ : -(2 ^ 15) ≤ n ∧ n < 2 ^ 15)]

theorem i32_from_into (v : I32) :
    i32_from_value (i32_into_value v) = some v := by
  obtain ⟨n, h1, h2⟩ := v
  simp only [i32_into_value, i32_from_value, Value.as_i64]
  rw [if_pos (⟨by omega, by omega⟩ : -(2 ^ 63) ≤ n ∧ n < 2 ^ 63)]
  show tryIntoI32 n = some ⟨n, h1, h2⟩
  unfold tryIntoI32
  rw [dif_pos (⟨h1, h2⟩ : -(2 ^ 31) ≤ n ∧ n < 2 ^ 31)]

theorem i64_from_into (v : I64) :
    i64_from_value (i64_into_value v) = some v := by
  obtain ⟨n, h1, h2⟩ := v
  simp only [i64_into_value, i64_from_value, Value.as_i64]
  rw [if_pos (⟨h1, h2⟩ : -(2 ^ 63) ≤ n ∧ n < 2 ^ 63)]
  show tryIntoI64 n = some ⟨n, h1, h2⟩
  unfold tryIntoI64
  rw [dif_pos (⟨h1, h2⟩ : -(2 ^ 63) ≤ n ∧ n < 2 ^ 63)]

theorem u8_from_into (v : U8) :
    u8_from_value (u8_into_value v) = some v := by
  obtain ⟨n, h⟩ := v
  simp only [u8_into_value, u8_from_value, Value.as_u64]
  rw [if_pos (⟨by omega, by omega⟩ : 0 ≤ (n : Int) ∧ (n : Int) < 2 ^ 64)]
  show tryIntoU8 ((n : Int)).toNat = some ⟨n, h⟩
  rw [Int.toNat_natCast]
  unfold tryIntoU8
  rw [dif_pos h]

theorem u16_from_into (v : U16) :
    u16_from_value (u16_into_value v) = some v := by
  obtain ⟨n, h⟩ := v
  simp only [u16_into_value, u16_from_value, Value.as_u64]
  rw [if_pos (⟨by omega, by omega⟩ : 0 ≤ (n : Int) ∧ (n : Int) < 2 ^ 64)]
  show tryIntoU16 ((n : Int)).toNat = some ⟨n, h⟩
  rw [Int.toNat_natCast]
  unfold tryIntoU16
  rw [dif_pos h]

theorem u32_from_into (v : U32) :
    u32_from_value (u32_into_value v) = some v := by
  obtain ⟨n, h⟩ := v
  simp only [u32_into_value, u32_from_value, Value.as_u64]
  rw [if_pos (⟨by omega, by omega⟩ : 0 ≤ (n : Int) ∧ (n : Int) < 2 ^ 64)]
  show tryIntoU32 ((n : Int)).toNat = some ⟨n, h⟩
  rw [Int.toNat_natCast]
  unfold tryIntoU32
  rw [dif_pos h]

theorem u64_from_into (v : U64) :
    u64_from_value (u64_into_value v) = some v := by
  obtain ⟨n, h⟩ := v
  simp only [u64_into_value, u64_from_value, Value.as_u64]
  rw [if_pos (⟨by omega, by omega⟩ : 0 ≤ (n : Int) ∧ (n : Int) < 2 ^ 64)]
  show tryIntoU64 ((n : Int)).toNat = some ⟨n, h⟩
  rw [Int.toNat_natCast]
  unfold tryIntoU64
  rw [dif_pos h]

/-- The generic array arm round trip: if the per-element decoder inverts the
per-element encoder, the array decoder inverts the array encoder. -/
theorem vec_from_into {α : Type} (elemDecode : Value → Option α) (elemInto : α → Value)
    (helem : ∀ a, elemDecode (elemInto a) = some a) (xs : List α) :
    vec_from_value elemDecode (vec_into_value elemInto xs) = some xs := by
  show (xs.map elemInto).mapM (fun v => elemDecode v) = some xs
  rw [mapM_option_eq_some_iff, List.forall₂_map_left_iff]
  exact List.forall₂_same.mpr fun x _ => helem x

/-- A byte element decodes successfully exactly when the wire element is an
unsigned integer fitting in `0..=255`. -/
theorem u8_from_value_isSome_iff (x : Value) :
    (u8_from_value x).isSome ↔ ∃ n : Nat, x.as_u64 = some n ∧ n < 2 ^ 8 := by
  simp only [u8_from_value]
  cases hx : x.as_u64 with
  | none => simp
  | some n =>
    show (tryIntoU8 n).isSome ↔ _
    unfold tryIntoU8
    by_cases h : n < 2 ^ 8
    · rw [dif_pos h]
      simp
      omega
    · rw [dif_neg h]
      simp
      omega

/-! ### Claim theorems -/

/-- C1: the numeric id mapping is many-to-one on encode and a one-to-one
partial inverse on decode: `as_id` maps Boolean to 0, Double to 1, Int to 2,
Float to 3, String and Json to 4, Raw/Rpc/Msgpack/Protobuf to 5, and the
array kinds to 16-20; `from_id` resolves exactly the ids
0,1,2,3,4,5,16,17,18,19,20, with 4 going to `String` and 5 to `Raw` (never
an alias variant); on that set `from_id` then `as_id` is the identity; every
other `u32` id yields `none`. -/
theorem C1_id_mapping :
    (DataType.as_id .Boolean = 0 ∧ DataType.as_id .Double = 1 ∧
     DataType.as_id .Int = 2 ∧ DataType.as_id .Float = 3 ∧
     DataType.as_id .String = 4 ∧ DataType.as_id .Json = 4 ∧
     DataType.as_id .Raw = 5 ∧ DataType.as_id .Rpc = 5 ∧
     DataType.as_id .Msgpack = 5 ∧ DataType.as_id .Protobuf = 5 ∧
     DataType.as_id .BooleanArray = 16 ∧ DataType.as_id .DoubleArray = 17 ∧
     DataType.as_id .IntArray = 18 ∧ DataType.as_id .FloatArray = 19 ∧
     DataType.as_id .StringArray = 20) ∧
    (DataType.from_id 0 = some .Boolean ∧ DataType.from_id 1 = some .Double ∧
     DataType.from_id 2 = some .Int ∧ DataType.from_id 3 = some .Float ∧
     DataType.from_id 4 = some .String ∧ DataType.from_id 5 = some .Raw ∧
     DataType.from_id 16 = some .BooleanArray ∧
     DataType.from_id 17 = some .DoubleArray ∧
     DataType.from_id 18 = some .IntArray ∧
     DataType.from_id 19 = some .FloatArray ∧
     DataType.from_id 20 = some .StringArray) ∧
    (∀ id ∈ ([0, 1, 2, 3, 4, 5, 16, 17, 18, 19, 20] : List Nat),
       (DataType.from_id id).map DataType.as_id = some id) ∧
    (∀ id : Nat, id < 2 ^ 32 →
       id ∉ ([0, 1, 2, 3, 4, 5, 16, 17, 18, 19, 20] : List Nat) →
       DataType.from_id id = none) := by
  refine ⟨by decide, by decide, by decide, ?_⟩
  intro id _ h
  unfold DataType.from_id
  split <;> simp_all

/-- Witness for C1: `from_id` then `as_id` is the identity at id 17, and
id 99 (a `u32` outside the canonical set) does not resolve. -/
theorem C1_id_mapping_witness :
    (DataType.from_id 17).map DataType.as_id = some 17 ∧
      DataType.from_id 99 = none :=
  ⟨C1_id_mapping.2.2.1 17 (by decide), C1_id_mapping.2.2.2 99 (by decide) (by decide)⟩

/-- C10 (implicit): the sentinel id is never resolvable: `Struct`,
`StructSchema` and `Other` all have id `u32::MAX = 4294967295`, `from_id`
of that id is `none`, hence `from_id (as_id d)` is `none` for those
variants, and serializing such a `DataType` as a bare numeric id and
deserializing it back through the visitor always fails with a hard error. -/
theorem C10_sentinel_id_unresolvable :
    (∀ name, DataType.as_id (.Struct name) = 4294967295) ∧
    DataType.as_id .StructSchema = 4294967295 ∧
    (∀ raw, DataType.as_id (.Other raw) = 4294967295) ∧
    DataType.from_id 4294967295 = none ∧
    (∀ name, DataType.from_id (DataType.as_id (.Struct name)) = none) ∧
    DataType.from_id (DataType.as_id .StructSchema) = none ∧
    (∀ raw, DataType.from_id (DataType.as_id (.Other raw)) = none) ∧
    (∀ name, visit_u64 (serialize_as_u32 (.Struct name)) =
       .error "4294967295 is not a valid type id") ∧
    (visit_u64 (serialize_as_u32 .StructSchema) =
       .error "4294967295 is not a valid type id") ∧
    (∀ raw, visit_u64 (serialize_as_u32 (.Other raw)) =
       .error "4294967295 is not a valid type id") := by
  refine ⟨fun name => rfl, rfl, fun raw => rfl, by decide,
    fun name => by rw [show DataType.as_id (.Struct name) = 4294967295 from rfl]; decide,
    by decide,
    fun raw => by rw [show DataType.as_id (.Other raw) = 4294967295 from rfl]; decide,
    fun name => ?_, ?_, fun raw => ?_⟩ <;>
  · show visit_u64 4294967295 = _
    unfold visit_u64
    norm_num
    rfl

/-- C8: wire-id deserialization: the signed visitor defers to the unsigned
one after a narrowing that fails for negatives; the unsigned visitor narrows
to `u32` and looks the id up with `from_id`; every failure is a hard error,
an in-range unknown id's error message names the offending value, and id 99
in particular fails with a message containing "99" that says it is not a
valid type id; every valid id returns the `from_id` variant. -/
theorem C8_wire_id_visitor :
    (∀ v : Nat, v < 2 ^ 32 → ∀ d, DataType.from_id v = some d →
       visit_u64 v = .ok d) ∧
    (∀ v : Nat, v < 2 ^ 32 → DataType.from_id v = none →
       visit_u64 v = .error (toString v ++ " is not a valid type id")) ∧
    (∀ v : Nat, 2 ^ 32 ≤ v →
       visit_u64 v = .error "out of range integral type conversion attempted") ∧
    (∀ v : Int, 0 ≤ v → visit_i64 v = visit_u64 v.toNat) ∧
    (∀ v : Int, v < 0 →
       visit_i64 v = .error "out of range integral type conversion attempted") ∧
    visit_u64 99 = .error "99 is not a valid type id" ∧
    (∃ pre suf : String, "99 is not a valid type id" = pre ++ "99" ++ suf) := by
  refine ⟨?_, ?_, ?_, ?_, ?_, ?_, "", " is not a valid type id", rfl⟩
  · intro v hv d hd
    unfold visit_u64
    rw [if_pos hv, hd]
  · intro v hv hd
    unfold visit_u64
    rw [if_pos hv, hd]
  · intro v hv
    unfold visit_u64
    rw [if_neg (by omega)]
  · intro v hv
    unfold visit_i64
    rw [if_pos hv]
  · intro v hv
    unfold visit_i64
    rw [if_neg (by omega)]
  · show visit_u64 99 = _
    unfold visit_u64
    norm_num
    rfl

/-- Witness for C8: the valid id 3 resolves to `Float`, and the in-range
unknown id 99 fails naming the offending value. -/
theorem C8_wire_id_visitor_witness :
    visit_u64 3 = .ok DataType.Float ∧
      visit_u64 99 = .error (toString 99 ++ " is not a valid type id") :=
  ⟨C8_wire_id_visitor.1 3 (by decide) DataType.Float (by decide),
   C8_wire_id_visitor.2.1 99 (by decide) (by decide)⟩

/-- C2 counterexample: the claimed textual round-trip fails at the very
first fixed token: decoding `"boolean"` yields `Boolean`, whose textual
serialization is the derived variant name `"Boolean"`, not `"boolean"`. -/
theorem C2_round_trip_counterexample :
    (DataType.serialize (DataType.deserialize "boolean")).asToken ≠
      some "boolean" := by decide

/-- C2 amended: textual encoding is serde's *derived* serializer, which
emits the Rust variant name, not the canonical token table, so no fixed
token round-trips: for each of the 15 fixed tokens, decode-then-serialize
yields the bare variant name, which differs from the original token; and
`"struct:Rotation2d"` decodes to `Struct "Rotation2d"`, which serializes as
a tagged newtype form rather than any bare token. -/
theorem C2_tokens_serialize_to_variant_names :
    ((DataType.serialize (DataType.deserialize "boolean")).asToken = some "Boolean" ∧
      "Boolean" ≠ "boolean") ∧
    ((DataType.serialize (DataType.deserialize "double")).asToken = some "Double" ∧
      "Double" ≠ "double") ∧
    ((DataType.serialize (DataType.deserialize "int")).asToken = some "Int" ∧
      "Int" ≠ "int") ∧
    ((DataType.serialize (DataType.deserialize "float")).asToken = some "Float" ∧
      "Float" ≠ "float") ∧
    ((DataType.serialize (DataType.deserialize "string")).asToken = some "String" ∧
      "String" ≠ "string") ∧
    ((DataType.serialize (DataType.deserialize "json")).asToken = some "Json" ∧
      "Json" ≠ "json") ∧
    ((DataType.serialize (DataType.deserialize "raw")).asToken = some "Raw" ∧
      "Raw" ≠ "raw") ∧
    ((DataType.serialize (DataType.deserialize "rpc")).asToken = some "Rpc" ∧
      "Rpc" ≠ "rpc") ∧
    ((DataType.serialize (DataType.deserialize "msgpack")).asToken = some "Msgpack" ∧
      "Msgpack" ≠ "msgpack") ∧
    ((DataType.serialize (DataType.deserialize "protobuf")).asToken = some "Protobuf" ∧
      "Protobuf" ≠ "protobuf") ∧
    ((DataType.serialize (DataType.deserialize "boolean[]")).asToken = some "BooleanArray" ∧
      "BooleanArray" ≠ "boolean[]") ∧
    ((DataType.serialize (DataType.deserialize "double[]")).asToken = some "DoubleArray" ∧
      "DoubleArray" ≠ "double[]") ∧
    ((DataType.serialize (DataType.deserialize "int[]")).asToken = some "IntArray" ∧
      "IntArray" ≠ "int[]") ∧
    ((DataType.serialize (DataType.deserialize "float[]")).asToken = some "FloatArray" ∧
      "FloatArray" ≠ "float[]") ∧
    ((DataType.serialize (DataType.deserialize "string[]")).asToken = some "StringArray" ∧
      "StringArray" ≠ "string[]") ∧
    (DataType.deserialize "struct:Rotation2d" = .Struct "Rotation2d" ∧
      DataType.serialize (DataType.deserialize "struct:Rotation2d") =
        .newtypeVariant "Struct" "Rotation2d" ∧
      (DataType.serialize (DataType.deserialize "struct:Rotation2d")).asToken =
        none) := by decide

/-- C3 counterexample: a token with a doubled prefix refutes the claimed
single-strip rule: `"struct:struct:Rotation2d"` does not decode to
`Struct "struct:Rotation2d"` (the code strips *all* leading `"struct:"`
occurrences and yields `Struct "Rotation2d"`). -/
theorem C3_single_strip_counterexample :
    DataType.deserialize "struct:struct:Rotation2d" ≠
        DataType.Struct "struct:Rotation2d" ∧
      DataType.deserialize "struct:struct:Rotation2d" =
        DataType.Struct "Rotation2d" := by decide

/-- C3 amended: textual decoding is total: the 16 fixed case-sensitive
tokens map to their table variants; every token that starts with
`"struct:"` decodes to `Struct suffix`, where the suffix is the token with
*all leading repetitions* of `"struct:"` stripped (Rust
`trim_start_matches` semantics, witnessed by the split
`token = "struct:"^k ++ suffix` with the suffix free of the prefix); every
other token decodes to `Other token`. -/
theorem C3_textual_decode_total :
    (DataType.deserialize "boolean" = .Boolean ∧
     DataType.deserialize "double" = .Double ∧
     DataType.deserialize "int" = .Int ∧
     DataType.deserialize "float" = .Float ∧
     DataType.deserialize "string" = .String ∧
     DataType.deserialize "json" = .Json ∧
     DataType.deserialize "raw" = .Raw ∧
     DataType.deserialize "rpc" = .Rpc ∧
     DataType.deserialize "msgpack" = .Msgpack ∧
     DataType.deserialize "protobuf" = .Protobuf ∧
     DataType.deserialize "boolean[]" = .BooleanArray ∧
     DataType.deserialize "double[]" = .DoubleArray ∧
     DataType.deserialize "int[]" = .IntArray ∧
     DataType.deserialize "float[]" = .FloatArray ∧
     DataType.deserialize "string[]" = .StringArray ∧
     DataType.deserialize "structschema" = .StructSchema) ∧
    (∀ s : String, structTag.isPrefixOf s.data →
      ∃ (name : String) (k : Nat),
        DataType.deserialize s = .Struct name ∧
        s.data = (List.replicate k structTag).flatten ++ name.data ∧
        ¬ structTag.isPrefixOf name.data) ∧
    (∀ s : String, ¬ structTag.isPrefixOf s.data →
      s ∉ (["boolean", "double", "int", "float", "string", "json", "raw",
            "rpc", "msgpack", "protobuf", "boolean[]", "double[]", "int[]",
            "float[]", "string[]", "structschema"] : List String) →
      DataType.deserialize s = .Other s) := by
  refine ⟨by decide, ?_, ?_⟩
  · intro s hp
    obtain ⟨k, hk, hnp⟩ := trimStartMatchesStruct_spec s.data.length s le_rfl
    refine ⟨trimStartMatchesStruct s, k, ?_, hk, hnp⟩
    unfold DataType.deserialize
    rw [if_pos hp]
  · intro s hp hmem
    unfold DataType.deserialize
    rw [if_neg hp]
    split <;> simp_all

/-- Witness for C3: the struct clause at `"struct:struct:Rotation2d"` and
the fallback clause at `"banana"`. -/
theorem C3_textual_decode_total_witness :
    (∃ (name : String) (k : Nat),
      DataType.deserialize "struct:struct:Rotation2d" = .Struct name ∧
      ("struct:struct:Rotation2d" : String).data =
        (List.replicate k structTag).flatten ++ name.data ∧
      ¬ structTag.isPrefixOf name.data) ∧
    DataType.deserialize "banana" = .Other "banana" :=
  ⟨C3_textual_decode_total.2.1 "struct:struct:Rotation2d" (by decide),
   C3_textual_decode_total.2.2 "banana" (by decide) (by decide)⟩

/-- C4: scalar round-trip: for every supported scalar type (bool, f64, the
four signed and four unsigned integer widths, f32, String) and every value
of that type, decoding the wire value produced by encoding it recovers the
value; in particular at the representative values `true`, `-1` (as `i8`),
`255` (as `u8`), `3.5` (as `f32`) and `"hello"`. -/
theorem C4_scalar_round_trip :
    (∀ v : Bool, bool_from_value (bool_into_value v) = some v) ∧
    (∀ v : ℚ, f64_from_value (f64_into_value v) = some v) ∧
    (∀ v : I8, i8_from_value (i8_into_value v) = some v) ∧
    (∀ v : I16, i16_from_value (i16_into_value v) = some v) ∧
    (∀ v : I32, i32_from_value (i32_into_value v) = some v) ∧
    (∀ v : I64, i64_from_value (i64_into_value v) = some v) ∧
    (∀ v : U8, u8_from_value (u8_into_value v) = some v) ∧
    (∀ v : U16, u16_from_value (u16_into_value v) = some v) ∧
    (∀ v : U32, u32_from_value (u32_into_value v) = some v) ∧
    (∀ v : U64, u64_from_value (u64_into_value v) = some v) ∧
    (∀ v : ℚ, f32_from_value (f32_into_value v) = some v) ∧
    (∀ v : String, string_from_value (string_into_value v) = some v) ∧
    bool_from_value (bool_into_value true) = some true ∧
    ((i8_from_value (i8_into_value ⟨-1, by decide⟩)).map Subtype.val = some (-1)) ∧
    ((u8_from_value (u8_into_value ⟨255, by decide⟩)).map Subtype.val = some 255) ∧
    f32_from_value (f32_into_value (7 / 2 : ℚ)) = some (7 / 2 : ℚ) ∧
    string_from_value (string_into_value "hello") = some "hello" :=
  ⟨bool_from_into, f64_from_into, i8_from_into, i16_from_into, i32_from_into,
   i64_from_into, u8_from_into, u16_from_into, u32_from_into, u64_from_into,
   f32_from_into, string_from_into, rfl, by decide, by decide, rfl, rfl⟩

/-- C5: integer narrowing is range-checked: decoding an integer wire value
as a signed width reads the signed 64-bit accessor and yields the value iff
it fits the target range (otherwise `none`); each unsigned width reads the
unsigned 64-bit accessor likewise; in particular a wire integer 300 decoded
as `u8` is `none`, 200 is `some 200`, and -1 decodes as `i8` but not as
`u8`. -/
theorem C5_integer_narrowing :
    (∀ n : Int, (i8_from_value (.integer n)).map Subtype.val =
       if -(2 ^ 7) ≤ n ∧ n < 2 ^ 7 then some n else none) ∧
    (∀ n : Int, (i16_from_value (.integer n)).map Subtype.val =
       if -(2 ^ 15) ≤ n ∧ n < 2 ^ 15 then some n else none) ∧
    (∀ n : Int, (i32_from_value (.integer n)).map Subtype.val =
       if -(2 ^ 31) ≤ n ∧ n < 2 ^ 31 then some n else none) ∧
    (∀ n : Int, (i64_from_value (.integer n)).map Subtype.val =
       if -(2 ^ 63) ≤ n ∧ n < 2 ^ 63 then some n else none) ∧
    (∀ n : Int, (u8_from_value (.integer n)).map Subtype.val =
       if 0 ≤ n ∧ n < 2 ^ 8 then some n.toNat else none) ∧
    (∀ n : Int, (u16_from_value (.integer n)).map Subtype.val =
       if 0 ≤ n ∧ n < 2 ^ 16 then some n.toNat else none) ∧
    (∀ n : Int, (u32_from_value (.integer n)).map Subtype.val =
       if 0 ≤ n ∧ n < 2 ^ 32 then some n.toNat else none) ∧
    (∀ n : Int, (u64_from_value (.integer n)).map Subtype.val =
       if 0 ≤ n ∧ n < 2 ^ 64 then some n.toNat else none) ∧
    u8_from_value (.integer 300) = none ∧
    ((u8_from_value (.integer 200)).map Subtype.val = some 200) ∧
    u8_from_value (.integer (-1)) = none ∧
    ((i8_from_value (.integer (-1))).map Subtype.val = some (-1)) := by
  refine ⟨?_, ?_, ?_, ?_, ?_, ?_, ?_, ?_, by decide, by decide, by decide, by decide⟩
  · intro n
    simp only [i8_from_value, Value.as_i64]
    by_cases h64 : -(2 ^ 63) ≤ n ∧ n < 2 ^ 63
    · rw [if_pos h64]
      show (tryIntoI8 n).map Subtype.val = _
      unfold tryIntoI8
      by_cases h : -(2 ^ 7) ≤ n ∧ n < 2 ^ 7
      · rw [dif_pos h, if_pos h]
        rfl
      · rw [dif_neg h, if_neg h]
        rfl
    · rw [if_neg h64, if_neg (by omega)]
      rfl
  · intro n
    simp only [i16_from_value, Value.as_i64]
    by_cases h64 : -(2 ^ 63) ≤ n ∧ n < 2 ^ 63
    · rw [if_pos h64]
      show (tryIntoI16 n).map Subtype.val = _
      unfold tryIntoI16
      by_cases h : -(2 ^ 15) ≤ n ∧ n < 2 ^ 15
      · rw [dif_pos h, if_pos h]
        rfl
      · rw [dif_neg h, if_neg h]
        rfl
    · rw [if_neg h64, if_neg (by omega)]
      rfl
  · intro n
    simp only [i32_from_value, Value.as_i64]
    by_cases h64 : -(2 ^ 63) ≤ n ∧ n < 2 ^ 63
    · rw [if_pos h64]
      show (tryIntoI32 n).map Subtype.val = _
      unfold tryIntoI32
      by_cases h : -(2 ^ 31) ≤ n ∧ n < 2 ^ 31
      · rw [dif_pos h, if_pos h]
        rfl
      · rw [dif_neg h, if_neg h]
        rfl
    · rw [if_neg h64, if_neg (by omega)]
      rfl
  · intro n
    simp only [i64_from_value, Value.as_i64]
    by_cases h64 : -(2 ^ 63) ≤ n ∧ n < 2 ^ 63
    · rw [if_pos h64]
      show (tryIntoI64 n).map Subtype.val = _
      unfold tryIntoI64
      rw [dif_pos h64]
      rfl
    · rw [if_neg h64]
      rfl
  · intro n
    simp only [u8_from_value, Value.as_u64]
    by_cases h64 : 0 ≤ n ∧ n < 2 ^ 64
    · rw [if_pos h64]
      show (tryIntoU8 n.toNat).map Subtype.val = _
      unfold tryIntoU8
      by_cases h : n.toNat < 2 ^ 8
      · rw [dif_pos h, if_pos (by omega)]
        rfl
      · rw [dif_neg h, if_neg (by omega)]
        rfl
    · rw [if_neg h64, if_neg (by omega)]
      rfl
  · intro n
    simp only [u16_from_value, Value.as_u64]
    by_cases h64 : 0 ≤ n ∧ n < 2 ^ 64
    · rw [if_pos h64]
      show (tryIntoU16 n.toNat).map Subtype.val = _
      unfold tryIntoU16
      by_cases h : n.toNat < 2 ^ 16
      · rw [dif_pos h, if_pos (by omega)]
        rfl
      · rw [dif_neg h, if_neg (by omega)]
        rfl
    · rw [if_neg h64, if_neg (by omega)]
      rfl
  · intro n
    simp only [u32_from_value, Value.as_u64]
    by_cases h64 : 0 ≤ n ∧ n < 2 ^ 64
    · rw [if_pos h64]
      show (tryIntoU32 n.toNat).map Subtype.val = _
      unfold tryIntoU32
      by_cases h : n.toNat < 2 ^ 32
      · rw [dif_pos h, if_pos (by omega)]
        rfl
      · rw [dif_neg h, if_neg (by omega)]
        rfl
    · rw [if_neg h64, if_neg (by omega)]
      rfl
  · intro n
    simp only [u64_from_value, Value.as_u64]
    by_cases h64 : 0 ≤ n ∧ n < 2 ^ 64
    · rw [if_pos h64]
      show (tryIntoU64 n.toNat).map Subtype.val = _
      unfold tryIntoU64
      rw [dif_pos (by omega)]
      rfl
    · rw [if_neg h64]
      rfl

/-- C6: array decode is all-or-nothing and array encode is total and
order-preserving (instantiated, as in the claim's example, at `Vec<i32>`):
decoding succeeds with `ys` exactly when the wire value is an array whose
elements decode elementwise, in order, to `ys`; an array with any failing
element decodes to `none` (e.g. `[1, 2, "oops"]`), a non-array decodes to
`none`, `[1, 2, 3]` decodes to `some [1, 2, 3]`; encoding always yields the
wire array of element encodings in original order, and decode inverts it. -/
theorem C6_array_decode_all_or_nothing :
    (∀ (w : Value) (ys : List I32),
       vec_i32_from_value w = some ys ↔
         ∃ xs, w = Value.array xs ∧
           List.Forall₂ (fun x y => i32_from_value x = some y) xs ys) ∧
    (∀ xs : List Value, (∃ x ∈ xs, i32_from_value x = none) →
       vec_i32_from_value (Value.array xs) = none) ∧
    (∀ w : Value, (∀ xs, w ≠ Value.array xs) → vec_i32_from_value w = none) ∧
    vec_i32_from_value (Value.array [.integer 1, .integer 2, .str "oops"]) = none ∧
    ((vec_i32_from_value (Value.array [.integer 1, .integer 2, .integer 3])).map
        (List.map Subtype.val) = some [1, 2, 3]) ∧
    (∀ xs : List I32, vec_i32_into_value xs = Value.array (xs.map i32_into_value)) ∧
    (∀ xs : List I32, vec_i32_from_value (vec_i32_into_value xs) = some xs) := by
  refine ⟨?_, ?_, ?_, by decide, by decide, fun xs => rfl,
    fun xs => vec_from_into i32_from_value i32_into_value i32_from_into xs⟩
  · intro w ys
    cases w
    case array xs =>
      show xs.mapM (fun v => i32_from_value v) = some ys ↔ _
      rw [mapM_option_eq_some_iff]
      constructor
      · intro h
        exact ⟨xs, rfl, h⟩
      · rintro ⟨xs', heq, hf⟩
        injection heq with h
        subst h
        exact hf
    all_goals simp [vec_i32_from_value, vec_from_value, Value.as_array]
  · intro xs h
    obtain ⟨x, hx, hfail⟩ := h
    have hns : ¬ (xs.mapM fun v => i32_from_value v).isSome := by
      intro hs
      have := (mapM_option_isSome_iff _ xs).mp hs x hx
      rw [hfail] at this
      simp at this
    exact Option.not_isSome_iff_eq_none.mp hns
  · intro w h
    cases w
    case array xs => exact absurd rfl (h xs)
    all_goals rfl

/-- Witness for C6: the all-or-nothing clause at the concrete array
`[str "zzz"]` (whose element fails to decode as `i32`) and the non-array
clause at `nil`. -/
theorem C6_array_decode_all_or_nothing_witness :
    vec_i32_from_value (Value.array [Value.str "zzz"]) = none ∧
      vec_i32_from_value Value.nil = none :=
  ⟨C6_array_decode_all_or_nothing.2.1 [Value.str "zzz"]
      ⟨Value.str "zzz", List.mem_singleton.mpr rfl, rfl⟩,
   C6_array_decode_all_or_nothing.2.2.1 Value.nil
      (fun _ h => Value.noConfusion h)⟩

/-- C7: the byte-wrapper codec (`RawData`, `Rpc`, `Protobuf`): decode
succeeds exactly when the wire value is an array whose every element is an
unsigned integer in `0..=255` (an element like 256 fails the whole decode);
encode always produces a wire array with one wire integer per byte, so
encoding the bytes `[0, 1, 255]` gives a three-element wire array that
decodes back to the original bytes. -/
theorem C7_byte_wrapper_codec :
    (∀ w : Value, (rawData_from_value w).isSome ↔
       ∃ xs, w = Value.array xs ∧
         ∀ x ∈ xs, ∃ n : Nat, x.as_u64 = some n ∧ n < 2 ^ 8) ∧
    (∀ w : Value, (rpc_from_value w).isSome ↔ (rawData_from_value w).isSome) ∧
    (∀ w : Value, (protobuf_from_value w).isSome ↔ (rawData_from_value w).isSome) ∧
    rawData_from_value (Value.array [.integer 1, .integer 256]) = none ∧
    (∀ r : RawData, rawData_into_value r = Value.array (r.val.map u8_into_value)) ∧
    (∀ r : RawData, rawData_from_value (rawData_into_value r) = some r) ∧
    (∀ r : Rpc, rpc_from_value (rpc_into_value r) = some r) ∧
    (∀ r : Protobuf, protobuf_from_value (protobuf_into_value r) = some r) ∧
    (rawData_into_value ⟨[⟨0, by decide⟩, ⟨1, by decide⟩, ⟨255, by decide⟩]⟩ =
       Value.array [.integer 0, .integer 1, .integer 255]) ∧
    (rawData_from_value (Value.array [.integer 0, .integer 1, .integer 255]) =
       some ⟨[⟨0, by decide⟩, ⟨1, by decide⟩, ⟨255, by decide⟩]⟩) := by
  refine ⟨?_, fun w => ?_, fun w => ?_, by decide, fun r => rfl, ?_, ?_, ?_,
    rfl, by decide⟩
  · intro w
    cases w
    case array xs =>
      show ((xs.mapM fun v => u8_from_value v).map RawData.mk).isSome ↔ _
      rw [Option.isSome_map', mapM_option_isSome_iff]
      constructor
      · intro h
        exact ⟨xs, rfl, fun x hx => (u8_from_value_isSome_iff x).mp (h x hx)⟩
      · rintro ⟨xs', heq, hall⟩
        injection heq with h
        subst h
        exact fun x hx => (u8_from_value_isSome_iff x).mpr (hall x hx)
    all_goals simp [rawData_from_value, vec_from_value, Value.as_array]
  · simp [rpc_from_value, rawData_from_value, Option.isSome_map']
  · simp [protobuf_from_value, rawData_from_value, Option.isSome_map']
  · intro r
    show (vec_from_value u8_from_value
      (vec_into_value u8_into_value r.val)).map RawData.mk = some r
    rw [vec_from_into u8_from_value u8_into_value u8_from_into]
    rfl
  · intro r
    show (vec_from_value u8_from_value
      (vec_into_value u8_into_value r.val)).map Rpc.mk = some r
    rw [vec_from_into u8_from_value u8_into_value u8_from_into]
    rfl
  · intro r
    show (vec_from_value u8_from_value
      (vec_into_value u8_into_value r.val)).map Protobuf.mk = some r
    rw [vec_from_into u8_from_value u8_into_value u8_from_into]
    rfl

/-- C9: `JsonString` and plain `String` have identical wire-shape behaviour
and differ only in logical type: their `data_type`s are `Json` and `String`
respectively; for every wire value, `JsonString` decoding is `String`
decoding wrapped in the `JsonString` constructor (both succeed exactly on
wire strings, with no JSON syntax validation), and encoding a `JsonString`
produces the same wire value as encoding its underlying string. -/
theorem C9_jsonstring_refines_string :
    jsonString_data_type = DataType.Json ∧
    string_data_type = DataType.String ∧
    jsonString_data_type ≠ string_data_type ∧
    (∀ w : Value,
       jsonString_from_value w = (string_from_value w).map JsonString.mk) ∧
    (∀ w : Value, (jsonString_from_value w).isSome ↔ ∃ s, w = Value.str s) ∧
    (∀ s : String, jsonString_into_value (JsonString.mk s) = string_into_value s) := by
  refine ⟨rfl, rfl, by decide, fun w => ?_, fun w => ?_, fun s => rfl⟩
  · cases w <;> rfl
  · cases w <;> simp [jsonString_from_value, Value.as_str]

end NT
